import Mathlib

/-!
Shallow embedding of the steel-plants dashboard (`src/streamlit.py`).

Pandas tables are modelled as lists of records whose nullable cells are
`Option` values (`none` models NaN). A table carries explicit flags for
the presence of the optional columns that the code probes with
`col in df.columns`. All numeric cells are rationals, since the claims
only concern order and exact arithmetic on finitely many values.
-/

/-- One row of the `operating_plants` table. Nullable cells are `Option`
(`none` models pandas NaN). -/
structure PlantRow where
  country : Option String
  owner : Option String
  capacity : Option ℚ
  latitude : Option ℚ
  longitude : Option ℚ
deriving DecidableEq, Repr

/-- A pandas DataFrame over `PlantRow`s, with presence flags for the columns
the source probes via `col in df.columns`. -/
structure PlantTable where
  hasCountryCol : Bool
  hasOwnerCol : Bool
  hasCapacityCol : Bool
  rows : List PlantRow
deriving DecidableEq, Repr

/-- The three user-chosen filter values (sidebar widgets): country and owner
selections (with the `"All"` sentinel) and the capacity slider interval. -/
structure FilterCriteria where
  country : String
  owner : String
  lo : ℚ
  hi : ℚ
deriving DecidableEq, Repr

/-- Embeds `filtered_df[filtered_df[Country] == selected_country]` guarded by
`if selected_country != "All"` (streamlit.py lines 332-333). Pandas `==`
against NaN is False, hence the `some` comparison. -/
def countryFilter (sel : String) (t : PlantTable) : PlantTable :=
  if sel = "All" then t
  else { t with rows := t.rows.filter (fun r => decide (r.country = some sel)) }

/-- Embeds `filtered_df[filtered_df[Owner] == selected_company]` guarded by
`if selected_company != "All"` (lines 334-335). -/
def ownerFilter (sel : String) (t : PlantTable) : PlantTable :=
  if sel = "All" then t
  else { t with rows := t.rows.filter (fun r => decide (r.owner = some sel)) }

/-- Embeds the capacity mask `(df[capcol] >= lo) & (df[capcol] <= hi)`: a pandas
comparison with NaN is False, so an absent capacity fails the mask. -/
def capPred (lo hi : ℚ) (r : PlantRow) : Bool :=
  match r.capacity with
  | some v => decide (lo ≤ v) && decide (v ≤ hi)
  | none => false

/-- Embeds lines 336-339: apply the capacity mask when the capacity column is
present, otherwise keep the table as is. -/
def capacityFilter (lo hi : ℚ) (t : PlantTable) : PlantTable :=
  if t.hasCapacityCol then { t with rows := t.rows.filter (capPred lo hi) }
  else t

/-- Embeds the full filtering logic of `main` (lines 330-339): `df.copy()` then
the country, owner and capacity steps in sequence. -/
def filterChain (t : PlantTable) (c : FilterCriteria) : PlantTable :=
  capacityFilter c.lo c.hi (ownerFilter c.owner (countryFilter c.country t))

/-- Insert into a sorted list, keeping earlier elements first on ties
(a stable ascending sort step, as Python `sorted` guarantees). -/
def insertLe {α : Type} (le : α → α → Bool) (x : α) : List α → List α
  | [] => [x]
  | y :: ys => if le x y then x :: y :: ys else y :: insertLe le x ys

/-- Stable insertion sort, embedding Python `sorted`. -/
def sortLe {α : Type} (le : α → α → Bool) (l : List α) : List α :=
  l.foldr (insertLe le) []

/-- The non-null values of the capacity column, in row order
(pandas skips NaN in `sum`, `mean`, `max`, `min`). -/
def obsCapacities (t : PlantTable) : List ℚ :=
  t.rows.filterMap (fun r => r.capacity)

/-- Sum of a list of rationals (pandas `Series.sum`, which is 0 on empty). -/
def sumQ (l : List ℚ) : ℚ := l.foldl (fun a b => a + b) 0

/-- Maximum of a list, `none` on empty (pandas `max` of an all-NaN or empty
column is NaN). -/
def listMax (l : List ℚ) : Option ℚ :=
  l.foldl (fun acc v => match acc with | none => some v | some m => some (max m v)) none

/-- Minimum of a list, `none` on empty. -/
def listMin (l : List ℚ) : Option ℚ :=
  l.foldl (fun acc v => match acc with | none => some v | some m => some (min m v)) none

/-- Python `int()` on a rational: truncation toward zero. -/
def pyInt (q : ℚ) : ℤ := if 0 ≤ q then q.floor else -((-q).floor)

/-- Embeds lines 318-324: `cap_max = int(df[capcol].max()) if capcol in
df.columns else 1`, then a slider with `min_value=0, max_value=cap_max`.
`none` models the exception `int(nan)` raises when every capacity is absent. -/
def capacitySlider (df : PlantTable) : Option (ℤ × ℤ) :=
  if df.hasCapacityCol then
    match listMax (obsCapacities df) with
    | some m => some (0, pyInt m)
    | none => none
  else some (0, 1)

/-- Embeds line 312: the country selector options, `["All"] + sorted(unique
non-null countries)` when the column exists, else `["All"]`. -/
def sidebar_countries (df : PlantTable) : List String :=
  if df.hasCountryCol then
    "All" :: sortLe (fun a b => decide (a ≤ b)) ((df.rows.filterMap (fun r => r.country)).dedup)
  else ["All"]

/-- Embeds line 315: the company selector options. -/
def sidebar_companies (df : PlantTable) : List String :=
  if df.hasOwnerCol then
    "All" :: sortLe (fun a b => decide (a ≤ b)) ((df.rows.filterMap (fun r => r.owner)).dedup)
  else ["All"]

/-- The values `main` derives from the base table and the criteria before
rendering: the (unchanged) base binding `df`, the two sidebar option lists
(computed from `df`, lines 312-315), and `filtered_df` (lines 330-339). -/
structure MainView where
  base : PlantTable
  countries : List String
  companies : List String
  filtered : PlantTable
deriving DecidableEq, Repr

/-- Embeds the sidebar-and-filter part of `main` (lines 304-339) as a pure
function from the loaded base table and the widget selections. -/
def runMain (df : PlantTable) (c : FilterCriteria) : MainView :=
  { base := df
  , countries := sidebar_countries df
  , companies := sidebar_companies df
  , filtered := filterChain df c }

/-- The four KPI values of `create_metrics_row` (lines 54-67). `avgCapacity`
is an `Option` because pandas `mean` of an empty column is NaN (`none`);
the Python literal `0` used when the column is absent is `some 0`. -/
structure MetricsRow where
  totalPlants : ℕ
  totalCapacity : ℚ
  avgCapacity : Option ℚ
  nCountries : ℕ
deriving DecidableEq, Repr

/-- Embeds `create_metrics_row` (lines 54-67): row count; `sum` and `mean` of
the capacity column when present (pandas skips NaN; `sum` of no values is 0,
`mean` of no values is NaN) else the literal 0; `nunique` of the country
column (distinct non-null values) when present else 0. -/
def create_metrics_row (df : PlantTable) : MetricsRow :=
  { totalPlants := df.rows.length
  , totalCapacity := if df.hasCapacityCol then sumQ (obsCapacities df) else 0
  , avgCapacity :=
      if df.hasCapacityCol then
        match obsCapacities df with
        | [] => none
        | l => some (sumQ l / (l.length : ℚ))
      else some 0
  , nCountries :=
      if df.hasCountryCol then (df.rows.filterMap (fun r => r.country)).dedup.length
      else 0 }

/-- One row of the `company_aggregation` table. -/
structure CompanyRow where
  owner : String
  total_capacity : ℚ
  number_of_plants : ℕ
  number_of_countries : ℕ
deriving DecidableEq, Repr

/-- Embeds `create_company_charts` (lines 125-154): `None` on an empty table,
else `top_companies = company_df.head(20)` — the first 20 rows in input
order, shared by all three charts. No sorting happens in the source. -/
def create_company_charts (rows : List CompanyRow) : Option (List CompanyRow) :=
  if rows = [] then none else some (rows.take 20)

/-- Which column a company chart plots on its y axis. -/
inductive CompanyMetric
  | capacity
  | plants
  | countries
deriving DecidableEq, Repr

/-- The y value each chart reads from a company row. -/
def metricValue : CompanyMetric → CompanyRow → ℚ
  | CompanyMetric.capacity, r => r.total_capacity
  | CompanyMetric.plants, r => (r.number_of_plants : ℚ)
  | CompanyMetric.countries, r => (r.number_of_countries : ℚ)

/-- The (x, y) data series behind the chart for a given metric: the owner and
metric columns of `create_company_charts`; output row order is bar order. -/
def companyChartData (rows : List CompanyRow) (m : CompanyMetric) :
    Option (List (String × ℚ)) :=
  (create_company_charts rows).map (fun l => l.map (fun r => (r.owner, metricValue m r)))

/-- One row of the `merged_environmental_data` table. -/
structure EnvRow where
  country : Option String
  owner : Option String
  capacity : Option ℚ
  latitude_left : Option ℚ
  longitude_left : Option ℚ
  value : Option ℚ
deriving DecidableEq, Repr

/-- The environmental table with the presence flag for the `value` column. -/
structure EnvTable where
  hasValueCol : Bool
  rows : List EnvRow
deriving DecidableEq, Repr

/-- The value column of the environmental table, in row order. -/
def envValues (t : EnvTable) : List (Option ℚ) := t.rows.map (fun r => r.value)

/-- Embeds pandas `Series.quantile(0.75)` on the non-null values: sort
ascending, locate position `h = 0.75 * (n - 1) = (3 * (n - 1)) / 4` and
interpolate linearly between the order statistics at `floor h` and the next
index; the floor and fractional part of `h` are taken with integer division
by 4. NaN (`none`) when there are no values. -/
def quantile75 (l : List ℚ) : Option ℚ :=
  let s := sortLe (fun a b : ℚ => decide (a ≤ b)) l
  if s.length = 0 then none
  else
    let k := 3 * (s.length - 1)
    let i := k / 4
    let xi := s.getD i 0
    let xj := s.getD (Nat.min (i + 1) (s.length - 1)) 0
    some (xi + ((k % 4 : ℕ) : ℚ) / 4 * (xj - xi))

/-- Embeds line 181: `len(df[df[value] > df[value].quantile(0.75)]) if value
in df.columns else 0`. A comparison against a NaN threshold (no non-null
values) is all-False, and rows with NaN value never compare greater. -/
def high_risk_plants (t : EnvTable) : ℕ :=
  if t.hasValueCol then
    match quantile75 ((envValues t).filterMap id) with
    | none => 0
    | some q =>
        ((envValues t).filter (fun v => match v with
          | some x => decide (q < x)
          | none => false)).length
  else 0

/-- Embeds line 190: `df.dropna(subset=[latitude_left, longitude_left,
value])` in `create_environmental_map`. -/
def env_dropna (rows : List EnvRow) : List EnvRow :=
  rows.filter (fun r => r.latitude_left.isSome && r.longitude_left.isSome && r.value.isSome)

/-- Embeds line 74: `df.dropna(subset=[latitude, longitude])` in
`create_geographic_map` — only the two coordinate columns. -/
def geo_dropna (rows : List PlantRow) : List PlantRow :=
  rows.filter (fun r => r.latitude.isSome && r.longitude.isSome)

/-- A plant row with capacity 100 and no coordinates. -/
def exRowCap100 : PlantRow :=
  { country := some "FR", owner := some "Acme", capacity := some 100
  , latitude := none, longitude := none }

/-- A plant row whose capacity is absent (NaN). -/
def exRowNoCap : PlantRow :=
  { country := some "FR", owner := some "Acme", capacity := none
  , latitude := none, longitude := none }

/-- A base table with one present and one absent capacity; its observed
capacity range is [100, 100]. -/
def exT1 : PlantTable :=
  { hasCountryCol := true, hasOwnerCol := true, hasCapacityCol := true
  , rows := [exRowCap100, exRowNoCap] }

/-- A plant row with capacity exactly 5 (the lower slider bound below). -/
def exRowCap5 : PlantRow :=
  { country := some "FR", owner := some "Acme", capacity := some 5
  , latitude := none, longitude := none }

/-- A plant row with capacity 11, outside the range [5, 10] used below. -/
def exRowCap11 : PlantRow :=
  { country := some "FR", owner := some "Acme", capacity := some 11
  , latitude := none, longitude := none }

/-- A table exercising the capacity filter: boundary, absent, out-of-range. -/
def exT4 : PlantTable :=
  { hasCountryCol := true, hasOwnerCol := true, hasCapacityCol := true
  , rows := [exRowCap5, exRowNoCap, exRowCap11] }

/-- The same rows with the capacity column absent from the table. -/
def exT4noCol : PlantTable :=
  { hasCountryCol := true, hasOwnerCol := true, hasCapacityCol := false
  , rows := [exRowCap5, exRowNoCap, exRowCap11] }

/-- An empty table that still has all columns. -/
def exEmpty : PlantTable :=
  { hasCountryCol := true, hasOwnerCol := true, hasCapacityCol := true
  , rows := [] }

/-- A table whose observed capacities are [100, 200]: observed min 100. -/
def exT8 : PlantTable :=
  { hasCountryCol := true, hasOwnerCol := true, hasCapacityCol := true
  , rows :=
      [ { country := some "FR", owner := some "Acme", capacity := some 100
        , latitude := none, longitude := none }
      , { country := some "DE", owner := some "Bolt", capacity := some 200
        , latitude := none, longitude := none } ] }

/-- A two-company table whose second row has the larger values; its input
order is ascending in every metric. -/
def exCompanies : List CompanyRow :=
  [ { owner := "A", total_capacity := 1, number_of_plants := 1, number_of_countries := 1 }
  , { owner := "B", total_capacity := 5, number_of_plants := 5, number_of_countries := 5 } ]

/-- An environmental table with the value column [10, 20, 30, 40]. -/
def exEnv : EnvTable :=
  { hasValueCol := true
  , rows :=
      [ { country := some "FR", owner := some "Acme", capacity := some 100
        , latitude_left := some 1, longitude_left := some 1, value := some 10 }
      , { country := some "FR", owner := some "Acme", capacity := some 100
        , latitude_left := some 1, longitude_left := some 1, value := some 20 }
      , { country := some "FR", owner := some "Acme", capacity := some 100
        , latitude_left := some 1, longitude_left := some 1, value := some 30 }
      , { country := some "FR", owner := some "Acme", capacity := some 100
        , latitude_left := some 1, longitude_left := some 1, value := some 40 } ] }

/-- A base table with two countries, used to separate the sidebar lists of
the base table from those of a filtered table. -/
def exT7 : PlantTable :=
  { hasCountryCol := true, hasOwnerCol := true, hasCapacityCol := false
  , rows :=
      [ { country := some "A", owner := some "Acme", capacity := none
        , latitude := none, longitude := none }
      , { country := some "B", owner := some "Bolt", capacity := none
        , latitude := none, longitude := none } ] }

/-- A one-row table lacking both the country and the capacity columns. -/
def exT6 : PlantTable :=
  { hasCountryCol := false, hasOwnerCol := true, hasCapacityCol := false
  , rows := [exRowCap5] }

/-- Criteria selecting country "A" with everything else passive. -/
def exCrit7 : FilterCriteria :=
  { country := "A", owner := "All", lo := 0, hi := 0 }

-- # Helper lemmas

theorem countryFilter_hasCapacityCol (sel : String) (t : PlantTable) :
    (countryFilter sel t).hasCapacityCol = t.hasCapacityCol := by
  unfold countryFilter; split <;> rfl

theorem ownerFilter_hasCapacityCol (sel : String) (t : PlantTable) :
    (ownerFilter sel t).hasCapacityCol = t.hasCapacityCol := by
  unfold ownerFilter; split <;> rfl

theorem mem_countryFilter (sel : String) (t : PlantTable) (r : PlantRow) :
    r ∈ (countryFilter sel t).rows ↔
      r ∈ t.rows ∧ (sel ≠ "All" → r.country = some sel) := by
  unfold countryFilter
  split
  · simp_all
  · simp [List.mem_filter]; tauto

theorem mem_ownerFilter (sel : String) (t : PlantTable) (r : PlantRow) :
    r ∈ (ownerFilter sel t).rows ↔
      r ∈ t.rows ∧ (sel ≠ "All" → r.owner = some sel) := by
  unfold ownerFilter
  split
  · simp_all
  · simp [List.mem_filter]; tauto

theorem mem_capacityFilter (lo hi : ℚ) (t : PlantTable) (r : PlantRow) :
    r ∈ (capacityFilter lo hi t).rows ↔
      r ∈ t.rows ∧ (t.hasCapacityCol = true → capPred lo hi r = true) := by
  unfold capacityFilter
  split
  · simp_all [List.mem_filter]
  · simp_all

theorem mem_filterChain (t : PlantTable) (c : FilterCriteria) (r : PlantRow) :
    r ∈ (filterChain t c).rows ↔
      r ∈ t.rows ∧ (c.country ≠ "All" → r.country = some c.country) ∧
        (c.owner ≠ "All" → r.owner = some c.owner) ∧
        (t.hasCapacityCol = true → capPred c.lo c.hi r = true) := by
  unfold filterChain
  rw [mem_capacityFilter, mem_ownerFilter, mem_countryFilter,
    ownerFilter_hasCapacityCol, countryFilter_hasCapacityCol]
  tauto

theorem rows_countryFilter_sublist (sel : String) (t : PlantTable) :
    List.Sublist (countryFilter sel t).rows t.rows := by
  unfold countryFilter
  split
  · exact List.Sublist.refl _
  · exact List.filter_sublist _

theorem rows_ownerFilter_sublist (sel : String) (t : PlantTable) :
    List.Sublist (ownerFilter sel t).rows t.rows := by
  unfold ownerFilter
  split
  · exact List.Sublist.refl _
  · exact List.filter_sublist _

theorem rows_capacityFilter_sublist (lo hi : ℚ) (t : PlantTable) :
    List.Sublist (capacityFilter lo hi t).rows t.rows := by
  unfold capacityFilter
  split
  · exact List.filter_sublist _
  · exact List.Sublist.refl _

theorem countryFilter_all (t : PlantTable) : countryFilter "All" t = t := by
  unfold countryFilter; simp

theorem ownerFilter_all (t : PlantTable) : ownerFilter "All" t = t := by
  unfold ownerFilter; simp

theorem capPred_eq_true_iff (lo hi : ℚ) (r : PlantRow) :
    capPred lo hi r = true ↔ ∃ v, r.capacity = some v ∧ lo ≤ v ∧ v ≤ hi := by
  cases hc : r.capacity <;> simp [capPred, hc]

theorem mem_insertLe {α : Type} (le : α → α → Bool) (x y : α) (l : List α) :
    y ∈ insertLe le x l ↔ y = x ∨ y ∈ l := by
  induction l with
  | nil => simp [insertLe]
  | cons a tl ih =>
      unfold insertLe
      split
      · simp
      · simp [ih]; tauto

theorem mem_sortLe {α : Type} (le : α → α → Bool) (y : α) (l : List α) :
    y ∈ sortLe le l ↔ y ∈ l := by
  induction l with
  | nil => simp [sortLe]
  | cons a tl ih =>
      have h : sortLe le (a :: tl) = insertLe le a (sortLe le tl) := rfl
      rw [h, mem_insertLe, ih]
      simp

theorem length_filter_option (p : ℚ → Bool) (l : List (Option ℚ)) :
    (l.filter (fun v => match v with | some x => p x | none => false)).length =
      ((l.filterMap id).filter p).length := by
  induction l with
  | nil => rfl
  | cons v tl ih =>
      cases v with
      | none => simpa using ih
      | some x =>
          by_cases hx : p x = true <;>
            simp [List.filter_cons, List.filterMap_cons, hx, ih]

-- # Claims

/-- C1, corrected, counterexample: on a base table with one present capacity
(100) and one absent capacity, whose observed capacity range is [100, 100],
filtering with country = owner = "All" and the full observed range returns
1 row, not the full 2-row base table — the absent-capacity row is dropped. -/
theorem claim_c1_counterexample :
    listMin (obsCapacities exT1) = some 100 ∧ listMax (obsCapacities exT1) = some 100 ∧
      (filterChain exT1 { country := "All", owner := "All", lo := 100, hi := 100 }).rows
        = [exRowCap100] ∧
      exT1.rows.length = 2 ∧
      (filterChain exT1 { country := "All", owner := "All", lo := 100, hi := 100 }).rows.length
        ≠ exT1.rows.length := by
  decide

/-- C1, amended: filtering with country = owner = "All" and a capacity range
containing every observed capacity returns the base table restricted to the
rows whose capacity is present when the capacity column exists, and the full
base table unchanged when the column is absent. -/
theorem claim_c1_amended (t : PlantTable) (lo hi : ℚ)
    (h : ∀ v ∈ obsCapacities t, lo ≤ v ∧ v ≤ hi) :
    filterChain t { country := "All", owner := "All", lo := lo, hi := hi } =
      { t with rows :=
          if t.hasCapacityCol then t.rows.filter (fun r => r.capacity.isSome)
          else t.rows } := by
  show capacityFilter lo hi (ownerFilter "All" (countryFilter "All" t)) = _
  rw [countryFilter_all, ownerFilter_all]
  unfold capacityFilter
  split
  · have hcongr : t.rows.filter (capPred lo hi) =
        t.rows.filter (fun r => r.capacity.isSome) := by
      apply List.filter_congr
      intro r hr
      cases hc : r.capacity with
      | none => simp [capPred, hc]
      | some v =>
          have hv : v ∈ obsCapacities t :=
            List.mem_filterMap.mpr ⟨r, hr, hc⟩
          simp [capPred, hc, (h v hv).1, (h v hv).2]
    rw [hcongr]
  · rfl

/-- Witness for C1 amended: at the concrete table `exT1` with the full
observed range [100, 100], the filter keeps exactly the present-capacity
row. -/
theorem claim_c1_amended_witness :
    (∀ v ∈ obsCapacities exT1, (100 : ℚ) ≤ v ∧ v ≤ 100) ∧
      filterChain exT1 { country := "All", owner := "All", lo := 100, hi := 100 } =
        { exT1 with rows :=
            if exT1.hasCapacityCol then exT1.rows.filter (fun r => r.capacity.isSome)
            else exT1.rows } :=
  ⟨by decide, claim_c1_amended exT1 100 100 (by decide)⟩

/-- C3, confirmed: the combined filter keeps exactly the rows kept by each of
the three single-predicate filters applied separately to the base table —
its row set is the intersection of the three single-filter row sets. -/
theorem claim_c3_conjunctive (t : PlantTable) (c : FilterCriteria) (r : PlantRow) :
    r ∈ (filterChain t c).rows ↔
      r ∈ (countryFilter c.country t).rows ∧ r ∈ (ownerFilter c.owner t).rows ∧
        r ∈ (capacityFilter c.lo c.hi t).rows := by
  rw [mem_filterChain, mem_countryFilter, mem_ownerFilter, mem_capacityFilter]
  tauto

/-- C4, confirmed: when the capacity column exists, the capacity filter keeps
exactly the rows whose capacity is present and lies in [lo, hi] with both
bounds inclusive (rows with absent capacity have no such value, hence are
excluded); when the column is absent, the filter is skipped and the table is
returned unchanged. -/
theorem claim_c4_capacity_filter (t : PlantTable) (lo hi : ℚ) :
    (t.hasCapacityCol = true →
      ∀ r, r ∈ (capacityFilter lo hi t).rows ↔
        r ∈ t.rows ∧ ∃ v, r.capacity = some v ∧ lo ≤ v ∧ v ≤ hi) ∧
    (t.hasCapacityCol = false → capacityFilter lo hi t = t) := by
  constructor
  · intro h r
    rw [mem_capacityFilter, capPred_eq_true_iff]
    simp [h]
  · intro h
    unfold capacityFilter
    simp [h]

/-- Witness for C4: with range [5, 10], the boundary row of capacity exactly 5
is retained, the absent-capacity row is excluded, and on the same rows with
the capacity column absent the filter keeps the whole table. -/
theorem claim_c4_witness :
    exRowCap5 ∈ (capacityFilter 5 10 exT4).rows ∧
      exRowNoCap ∉ (capacityFilter 5 10 exT4).rows ∧
      capacityFilter 5 10 exT4noCol = exT4noCol := by
  have h := claim_c4_capacity_filter exT4 5 10
  have h2 := claim_c4_capacity_filter exT4noCol 5 10
  refine ⟨(h.1 rfl exRowCap5).mpr ⟨by decide, 5, rfl, by norm_num⟩, ?_, h2.2 rfl⟩
  intro hmem
  obtain ⟨-, v, hv, -⟩ := (h.1 rfl exRowNoCap).mp hmem
  simp [exRowNoCap] at hv

/-- C9, confirmed: the environmental map cleaning keeps exactly the rows with
latitude_left, longitude_left and value all present, while the plant
geographic map cleaning keeps exactly the rows with latitude and longitude
present — it does not drop on an absent capacity or any other column. -/
theorem claim_c9_env_dropna :
    (∀ (rows : List EnvRow) (r : EnvRow),
        r ∈ env_dropna rows ↔
          r ∈ rows ∧ r.latitude_left.isSome = true ∧ r.longitude_left.isSome = true ∧
            r.value.isSome = true) ∧
    (∀ (rows : List PlantRow) (r : PlantRow),
        r ∈ geo_dropna rows ↔
          r ∈ rows ∧ r.latitude.isSome = true ∧ r.longitude.isSome = true) := by
  constructor
  · intro rows r
    simp [env_dropna, List.mem_filter]
    try tauto
  · intro rows r
    simp [geo_dropna, List.mem_filter]
    try tauto

/-- C10, confirmed: the output rows of every filter invocation form a
subsequence of the base table rows — each output row occurs in the base, no
positional row is used twice, and relative order is preserved. -/
theorem claim_c10_sublist (t : PlantTable) (c : FilterCriteria) :
    List.Sublist (filterChain t c).rows t.rows :=
  ((rows_capacityFilter_sublist c.lo c.hi _).trans
    (rows_ownerFilter_sublist c.owner _)).trans
    (rows_countryFilter_sublist c.country t)

theorem quantile75_exEnv : quantile75 ((envValues exEnv).filterMap id) = some (65 / 2) := by
  simp [quantile75, sortLe, insertLe, envValues, exEnv]
  norm_num
  simp

theorem high_risk_exEnv : high_risk_plants exEnv = 1 := by
  simp only [high_risk_plants, if_pos rfl]
  rw [quantile75_exEnv]
  simp [envValues, exEnv, List.filter]
  norm_num

/-- C2, code bug: on a two-row company table whose metric values appear in
ascending input order, the chart data is `head(20)` of the input, i.e. the
rows in input order with y series [1, 5], which is not sorted descending by
the requested metric — contradicting the charts own Top-20-by-metric
titles. -/
theorem claim_c2_head_not_sorted :
    companyChartData exCompanies CompanyMetric.capacity = some [("A", 1), ("B", 5)] ∧
      (companyChartData exCompanies CompanyMetric.capacity).map (fun l => l.map Prod.snd)
        = some [(1 : ℚ), 5] ∧
      ¬ List.Sorted (fun a b : ℚ => b ≤ a) [(1 : ℚ), 5] := by
  decide

/-- C5, confirmed: when the value column exists and has at least one present
value, the reported high-risk count equals the number of values strictly
greater than the 75th percentile of the same filtered value column; on the
column [10, 20, 30, 40] the percentile is 65/2 = 32.5 and the count is 1. -/
theorem claim_c5_high_risk :
    (∀ (t : EnvTable) (q : ℚ), t.hasValueCol = true →
        quantile75 ((envValues t).filterMap id) = some q →
        high_risk_plants t =
          (((envValues t).filterMap id).filter (fun x => decide (q < x))).length) ∧
      quantile75 ((envValues exEnv).filterMap id) = some (65 / 2) ∧
      high_risk_plants exEnv = 1 := by
  refine ⟨?_, quantile75_exEnv, high_risk_exEnv⟩
  intro t q h hq
  simp only [high_risk_plants, if_pos h, hq]
  exact length_filter_option (fun x => decide (q < x)) (envValues t)

/-- Witness for C5: at the concrete environmental table with values
[10, 20, 30, 40] and percentile 65/2, the count law holds. -/
theorem claim_c5_witness :
    high_risk_plants exEnv =
      (((envValues exEnv).filterMap id).filter (fun x => decide ((65 : ℚ) / 2 < x))).length :=
  claim_c5_high_risk.1 exEnv (65 / 2) rfl quantile75_exEnv

/-- C6, corrected, counterexample: on an empty table that still has the
capacity column, the average-capacity metric is NaN (here `none`), not 0 —
pandas `mean` of an empty column is NaN and is rendered as `nan`. -/
theorem claim_c6_counterexample :
    (create_metrics_row exEmpty).avgCapacity = none ∧ (none : Option ℚ) ≠ some 0 := by
  decide

/-- C6, amended: on an empty table the row count, capacity sum and distinct
country count are 0 while the capacity mean is NaN when the capacity column
is present (and the literal 0 when absent); each capacity or country metric
is 0 when its column is absent. -/
theorem claim_c6_amended :
    (∀ hc ho hcap : Bool,
        create_metrics_row
            { hasCountryCol := hc, hasOwnerCol := ho, hasCapacityCol := hcap, rows := [] } =
          { totalPlants := 0, totalCapacity := 0,
            avgCapacity := if hcap then none else some 0, nCountries := 0 }) ∧
    (∀ t : PlantTable, t.hasCapacityCol = false →
        (create_metrics_row t).totalCapacity = 0 ∧ (create_metrics_row t).avgCapacity = some 0) ∧
    (∀ t : PlantTable, t.hasCountryCol = false → (create_metrics_row t).nCountries = 0) := by
  refine ⟨?_, ?_, ?_⟩
  · intro hc ho hcap
    cases hc <;> cases ho <;> cases hcap <;> rfl
  · intro t h
    constructor <;> simp [create_metrics_row, h]
  · intro t h
    simp [create_metrics_row, h]

/-- Witness for C6 amended: evaluated on the empty table with all columns and
on a table lacking the capacity and country columns. -/
theorem claim_c6_amended_witness :
    create_metrics_row exEmpty =
        { totalPlants := 0, totalCapacity := 0, avgCapacity := none, nCountries := 0 } ∧
      (create_metrics_row exT6).avgCapacity = some 0 ∧
      (create_metrics_row exT6).nCountries = 0 := by
  refine ⟨?_, (claim_c6_amended.2.1 exT6 rfl).2, claim_c6_amended.2.2 exT6 rfl⟩
  have h := claim_c6_amended.1 true true true
  simpa [exEmpty] using h

/-- C7, confirmed: the filter never replaces the base table — `runMain`
returns the base binding unchanged and both sidebar option lists are
computed from the full base table; moreover there are inputs where the
filtered table would give a strictly smaller option list, so the lists are
genuinely taken from the base, never from the filtered table. -/
theorem claim_c7_no_mutation :
    (∀ (df : PlantTable) (c : FilterCriteria),
        (runMain df c).base = df ∧
        (runMain df c).countries = sidebar_countries df ∧
        (runMain df c).companies = sidebar_companies df) ∧
    (∃ (df : PlantTable) (c : FilterCriteria) (s : String),
        s ∈ (runMain df c).countries ∧ s ∉ sidebar_countries (runMain df c).filtered) := by
  constructor
  · exact fun df c => ⟨rfl, rfl, rfl⟩
  · refine ⟨exT7, exCrit7, "B", ?_, ?_⟩
    · show ("B" : String) ∈ sidebar_countries exT7
      simp [sidebar_countries, exT7, mem_sortLe]
    · show ("B" : String) ∉ sidebar_countries (filterChain exT7 exCrit7)
      have hrows : (filterChain exT7 exCrit7).rows =
          [{ country := some "A", owner := some "Acme", capacity := none
           , latitude := none, longitude := none }] := by decide
      have hcol : (filterChain exT7 exCrit7).hasCountryCol = true := by decide
      simp [sidebar_countries, hcol, hrows, mem_sortLe]

/-- C8, corrected, counterexample: on a table with observed capacities
[100, 200] the slider is bounded by (0, 200); the lower bound is the
constant 0, not the observed minimum 100. -/
theorem claim_c8_counterexample :
    capacitySlider exT8 = some (0, 200) ∧ listMin (obsCapacities exT8) = some 100 ∧
      (0 : ℤ) ≠ 100 := by
  decide

/-- C8, amended: the slider lower bound is hardcoded to 0 while the upper
bound is the observed maximum capacity truncated to an integer; when the
capacity column is absent the bounds are (0, 1). -/
theorem claim_c8_amended :
    (∀ (t : PlantTable) (m : ℚ), t.hasCapacityCol = true →
        listMax (obsCapacities t) = some m → capacitySlider t = some (0, pyInt m)) ∧
    (∀ t : PlantTable, t.hasCapacityCol = false → capacitySlider t = some (0, 1)) := by
  constructor
  · intro t m h hm
    unfold capacitySlider
    rw [if_pos h, hm]
  · intro t h
    unfold capacitySlider
    rw [if_neg (by simp [h])]

/-- Witness for C8 amended: evaluated at the table with capacities [100, 200]
and at a table lacking the capacity column. -/
theorem claim_c8_amended_witness :
    capacitySlider exT8 = some (0, pyInt 200) ∧ capacitySlider exT6 = some (0, 1) :=
  ⟨claim_c8_amended.1 exT8 200 rfl (by decide), claim_c8_amended.2 exT6 rfl⟩
